import Mathlib

/-!
Shallow embedding of `src/tasks/vrptw.py` (the VRPTW feasibility-masking and
state-transition engine) and proofs about it.

Conventions of the embedding:
* Real-valued tensors are modelled over `ℚ` (exact arithmetic); the tour-cost
  evaluator, whose output involves square roots, is modelled over `ℝ`.
* A batch is a `List` of per-sample records; tensors of shape
  `(batch, seq_len)` become `List (List ℚ)`.
* Python code that raises is modelled in the `Except String` monad; the
  error strings name the Python exception that would be raised.
-/

namespace VRPTW

/-- One sample slice of the dynamic tensor `(loads, demands, vtime)`,
each a per-node row of length `seq_len` (node 0 is the depot).
Mirrors `self.dynamic = torch.cat((loads, demands, vtime), 1)`. -/
structure DSample where
  loads : List ℚ
  demands : List ℚ
  vtime : List ℚ
  deriving Repr, DecidableEq

/-- Reading `xs[i]` for a 1-D gather with an in-range index; out-of-range reads
default to `0` (concrete uses below are always in range). -/
def gather1 (xs : List ℚ) (i : ℕ) : ℚ := xs.getD i 0

/-- The initial per-sample dynamic state built in `VRPTWDataset.__init__`
(lines 70-83): `loads = full(1.)`, `vtime = full(0.)`, and the raw random
demand row with the depot slot overwritten by `demands[:, 0, 0] = 0`. -/
def initSample (rawDemands : List ℚ) : DSample :=
  { loads := List.replicate rawDemands.length 1
    demands := rawDemands.set 0 0
    vtime := List.replicate rawDemands.length 0 }

/-! ## `update_mask` (source lines 93-130) -/

/-- The batch-global early-return guard of `update_mask` line 107:
`demands.eq(0).all()` ranges over every entry of every sample in the batch,
the depot sentinel slots included. -/
def allDemandsZero (dyn : List DSample) : Bool :=
  dyn.all (fun s => s.demands.all (fun d => d = 0))

/-- Per-sample capacity mask for the non-early-return path of `update_mask`:
line 111 `new_mask = demands.ne(0) * demands.lt(loads)`, lines 113-119 depot
slot overwrite from `chosen_idx`, lines 121-128 zero-load / zero-remaining-
demand override that rewrites the row to `[1, 0, ..., 0]`. -/
def capMaskSample (loads demands : List ℚ) (c : ℕ) : List ℚ :=
  let base := List.zipWith (fun d l => if d ≠ 0 ∧ d < l then (1 : ℚ) else 0) demands loads
  let m1 := base.set 0 (if c ≠ 0 then 1 else 0)
  if loads.headD 0 = 0 ∨ (demands.drop 1).sum = 0 then
    match m1 with
    | [] => []
    | _ :: t => 1 :: t.map (fun _ => 0)
  else m1

/-- Model of `VRPTWDataset.update_mask` (lines 93-130). `chosen` is the per-sample
previously chosen node index. Returns, per sample, a 0/1 row of the
demand row shape. -/
def update_mask (dyn : List DSample) (chosen : List ℕ) : List (List ℚ) :=
  if allDemandsZero dyn then
    dyn.map (fun s => s.demands.map (fun _ => (0 : ℚ)))
  else
    List.zipWith (fun s c => capMaskSample s.loads s.demands c) dyn chosen

/-! ## `update_time_mask` (source lines 132-150) -/

/-- Per-sample body of `update_time_mask`: `chosen_time = time_matrix[chosen]`
is a whole row, so entry `j` of the result is
`endtime[j] ≥ time_matrix[chosen][j] + vtime[j]` (lines 145-149). -/
def timeMaskSample (endtime vtime : List ℚ) (tm : List (List ℚ)) (c : ℕ) : List Bool :=
  let chosenTime := tm.getD c []
  let newTime := List.zipWith (· + ·) chosenTime vtime
  List.zipWith (fun e t => decide (t ≤ e)) endtime newTime

/-- Model of `VRPTWDataset.update_time_mask` over a batch: per sample, the end-time
row of the static tensor, the vtime row of the dynamic tensor, the per-sample
time matrix, and the per-sample `chosen_idx`. -/
def update_time_mask (ends vtimes : List (List ℚ)) (tms : List (List (List ℚ)))
    (chosen : List ℕ) : List (List Bool) :=
  List.zipWith (fun evt c => timeMaskSample evt.1 evt.2.1 evt.2.2 c)
    (List.zip ends (List.zip vtimes tms)) chosen

/-! ## `update_dynamic` (source lines 152-199)

Per source lines 173-174, a customer visit computes
`new_load = torch.clamp(load - demand, min=0)` and
`new_demand = torch.clamp(demand - load, min=0)`, and lines 185-190 write
them back (`all_demands[visit_idx, 0] = -1. + new_load`).  The time
computation in between is broken in the source:

* line 179 `self.static[:, -2][range(batch_size, chosen_idx)]` builds a
  Python `range` from `batch_size` to the chosen-index *tensor*: for a batch
  of two or more this raises
  `ValueError: only one element tensors can be converted to Python scalars`;
  for a batch of one it selects dataset *sample rows* `batch_size..chosen-1`
  of the window-start table, raising `IndexError` whenever such a row does
  not exist;
* line 180 `torch.clamp(vtime + rout_time)` passes neither `min` nor `max`
  and always raises `RuntimeError`.

Hence every call whose batch contains a customer visit raises before any
state is written; only all-depot steps (lines 193-196) complete. -/

/-- Line 173: `new_load = torch.clamp(load - demand, min=0)`. -/
def new_load (load demand : ℚ) : ℚ := max (load - demand) 0

/-- Line 174: `new_demand = torch.clamp(demand - load, min=0)`. -/
def new_demand (load demand : ℚ) : ℚ := max (demand - load) 0

/-- The load/demand write-back of the visit branch for one visiting sample
(lines 185-189): the gathered `load`/`demand` are read at `chosen` (lines
165-166), the new load is broadcast to the whole row, the demand slot of
the chosen node gets `new_demand`, and the depot demand slot gets
`-1. + new_load`. (The vtime write of line 190 is unreachable, see above.) -/
def settleVisitSample (s : DSample) (c : ℕ) : DSample :=
  let l := gather1 s.loads c
  let d := gather1 s.demands c
  { loads := List.replicate s.loads.length (new_load l d)
    demands := (s.demands.set c (new_demand l d)).set 0 (-1 + new_load l d)
    vtime := s.vtime }

/-- The depot branch of `update_dynamic` for one sample (lines 193-196):
`all_loads[...] = 1.`, `all_demands[..., 0] = 0.`, `all_vtime[...] = 0.`. -/
def depotResetSample (s : DSample) : DSample :=
  { loads := List.replicate s.loads.length 1
    demands := s.demands.set 0 0
    vtime := List.replicate s.vtime.length 0 }

/-- Lines 192-196 applied over the batch: samples whose chosen index is the
depot are reset, others are left as produced by the visit branch. -/
def applyDepotBranch (dyn : List DSample) (chosen : List ℕ) : List DSample :=
  List.zipWith (fun s c => if c = 0 then depotResetSample s else s) dyn chosen

/-- Modelling line 179, `range(batch_size, chosen_idx)`: the chosen-index tensor is
coerced with `__index__`, which only succeeds for a one-element tensor; the
result is the integer interval `[batchSize, c)`. -/
def pyRange (batchSize : ℕ) (chosen : List ℕ) : Except String (List ℕ) :=
  match chosen with
  | [c] => Except.ok (List.range' batchSize (c - batchSize))
  | _ => Except.error "ValueError: only one element tensors can be converted to Python scalars"

/-- Fancy row indexing `table[rows]` (line 179): raises `IndexError` when a
requested row does not exist. -/
def gatherRows (rows : List ℕ) (table : List (List ℚ)) : Except String (List (List ℚ)) :=
  if rows.all (fun r => r < table.length) then
    Except.ok (rows.map (fun r => table.getD r []))
  else
    Except.error "IndexError: index out of bounds of self.static"

/-- Model of `VRPTWDataset.update_dynamic` (lines 152-199).  `twStartTable` is the
dataset-wide window-start table `self.static[:, -2]` (one row per dataset
sample) read by line 179. When any sample visits a customer, lines 173-177
compute pure intermediates (`new_load`, `new_demand`, `rout_time` — their
formulas live in `new_load` / `new_demand` / `settleVisitSample` above),
after which line 179 may raise and the bare `torch.clamp` of line 180 always
raises, so the visit branch never returns. -/
def update_dynamic (twStartTable : List (List ℚ)) (dyn : List DSample)
    (chosen preChosen : List ℕ) (tm : List (List (List ℚ))) :
    Except String (List DSample) :=
  let _ := preChosen  -- only consumed by the unreachable time computation (line 177)
  let _ := tm
  if chosen.any (fun c => c ≠ 0) then
    match pyRange chosen.length chosen with
    | Except.error e => Except.error e
    | Except.ok rows =>
      match gatherRows rows twStartTable with
      | Except.error e => Except.error e
      | Except.ok _ =>
        -- line 180: `torch.clamp(vtime + rout_time)` with neither bound set
        Except.error "RuntimeError: torch.clamp requires min or max"
  else
    Except.ok (applyDepotBranch dyn chosen)

/-! ## `VRPTWDataset.__init__` validation and generation failures
(source lines 21-83) -/

/-- The generator configuration consumed by `VRPTWDataset.__init__`. -/
structure Cfg where
  max_load : ℤ
  max_demand : ℤ
  min_TW : ℤ
  max_TW : ℤ
  TW_from : ℤ
  TW_to : ℤ
  deriving Repr, DecidableEq

/-- The raising behaviour of `VRPTWDataset.__init__` as a function of the
integer generator bounds, step by step in source order:
lines 27-32 the three explicit `ValueError` checks; line 48
`ServiceTime/(TW_to-TW_from)` (Python scalar division, raises
`ZeroDivisionError` when `TW_to = TW_from`); line 57
`torch.randint(TW_from, TW_to-max_TW+1, ...)` (requires `low < high`);
line 58 `torch.randint(min_TW, max_TW+1, ...)`; line 61 the scalar division
`TW_from/TW_to` (raises when `TW_to = 0`); line 79
`torch.randint(1, max_demand+1, ...)`.  Tensor divisions (lines 59-60, 80)
do not raise in torch and are omitted. -/
def VRPTWDataset_init (c : Cfg) : Except String Unit :=
  if c.max_load < c.max_demand then
    Except.error "ValueError: max_load must be > max_demand"
  else if c.max_TW < c.min_TW then
    Except.error "ValueError: max_TW must be > min_TW"
  else if c.TW_to < c.TW_from then
    Except.error "ValueError: TW_end must be > TW_from"
  else if c.TW_to - c.TW_from = 0 then
    Except.error "ZeroDivisionError: division by zero"
  else if ¬ c.TW_from < c.TW_to - c.max_TW + 1 then
    Except.error "RuntimeError: random_ expects from < to (tw_start)"
  else if ¬ c.min_TW < c.max_TW + 1 then
    Except.error "RuntimeError: random_ expects from < to (tw_span)"
  else if c.TW_to = 0 then
    Except.error "ZeroDivisionError: division by zero (depot window)"
  else if ¬ (1 : ℤ) < c.max_demand + 1 then
    Except.error "RuntimeError: random_ expects from < to (demands)"
  else
    Except.ok ()

/-! ## `reward` (source lines 213-231)

The source gathers, for every tour index, the *entire static column*
(`idx = tour_indices.unsqueeze(1).expand(-1, static.size(1), -1)` expands
over all feature rows), concatenates the full depot column at both ends,
and sums `sqrt(Σ_f (y[t][f] - y[t+1][f])²)` over consecutive positions —
i.e. the Euclidean distance in the full feature space.  For this dataset
`static` has four rows `(x, y, tw_start, tw_end)` (line 63), so the
time-window rows participate in the distance.  A node is represented below
by its feature column `List ℝ`. -/

/-- Squared feature-space difference `Σ_f (a_f - b_f)²` of two columns. -/
noncomputable def sqDist (a b : List ℝ) : ℝ :=
  ((List.zip a b).map (fun p => (p.1 - p.2) ^ 2)).sum

/-- One tour segment of length `sqrt(Σ_f (a_f - b_f)²)` (line 229). -/
noncomputable def segLen (a b : List ℝ) : ℝ := Real.sqrt (sqDist a b)

/-- Sum of consecutive segment lengths along a list of columns. -/
noncomputable def pathLen : List (List ℝ) → ℝ
  | a :: b :: rest => segLen a b + pathLen (b :: rest)
  | _ => 0

/-- Model of `reward(static, tour_indices)` for one sample: gather the static columns
of the tour, anchor the depot column (`static[:, :, 0]`) at both ends, and
sum consecutive feature-space Euclidean distances (lines 219-231). -/
noncomputable def reward (static : List (List ℝ)) (tour : List ℕ) : ℝ :=
  let start := static.headD []
  pathLen (start :: tour.map (fun i => static.getD i []) ++ [start])

/-- Modelled from the words of the spec for comparison with `reward`
("scalar total Euclidean length ... sum consecutive pairwise Euclidean
distances" over the 2-D *coordinates*): the planar tour length of the
depot-anchored index sequence. -/
noncomputable def spec_tourLen2D (coords : List (ℝ × ℝ)) (tour : List ℕ) : ℝ :=
  let start := coords.headD (0, 0)
  pathLen ((start :: tour.map (fun i => coords.getD i (0, 0)) ++ [start]).map
    (fun p => [p.1, p.2]))

/-! ## Helper lemmas -/

lemma zipWith_get?_of_get? {α β γ : Type} (f : α → β → γ) {l₁ : List α} {l₂ : List β}
    {i : ℕ} {a : α} {b : β} (h₁ : l₁.get? i = some a) (h₂ : l₂.get? i = some b) :
    (List.zipWith f l₁ l₂).get? i = some (f a b) := by
  rw [List.get?_zipWith', h₁, h₂]
  rfl

lemma capMaskSample_length (loads demands : List ℚ)
    (hlen : loads.length = demands.length) :
    (List.zipWith (fun d l => if d ≠ 0 ∧ d < l then (1 : ℚ) else 0) demands loads).length
      = demands.length := by
  simp [List.length_zipWith, hlen]

lemma capMaskSample_combined {loads demands : List ℚ} (c : ℕ)
    (hlen : loads.length = demands.length) (hpos : 0 < demands.length)
    (h : loads.headD 0 = 0 ∨ (demands.drop 1).sum = 0) :
    capMaskSample loads demands c = 1 :: List.replicate (demands.length - 1) 0 := by
  have hbl := capMaskSample_length loads demands hlen
  obtain ⟨x, t, hxt⟩ :=
    List.exists_cons_of_ne_nil
      (l := List.zipWith (fun d l => if d ≠ 0 ∧ d < l then (1 : ℚ) else 0) demands loads)
      (by intro hnil; rw [hnil] at hbl; simp at hbl; omega)
  have ht : t.length = demands.length - 1 := by
    rw [hxt] at hbl
    simp at hbl
    omega
  unfold capMaskSample
  simp only [hxt]
  rw [if_pos h]
  simp only [List.set_cons_zero]
  refine congrArg (fun l => (1 : ℚ) :: l) ?_
  rw [List.eq_replicate_iff]
  refine ⟨by simp [ht], ?_⟩
  intro b hbmem
  rcases List.mem_map.mp hbmem with ⟨a, _, rfl⟩
  rfl

lemma capMaskSample_headD {loads demands : List ℚ} (c : ℕ)
    (hl : 0 < loads.length) (hd : 0 < demands.length) :
    (capMaskSample loads demands c).headD 0 =
      if loads.headD 0 = 0 ∨ (demands.drop 1).sum = 0 then 1
      else if c ≠ 0 then 1 else 0 := by
  have hbl : (List.zipWith (fun d l => if d ≠ 0 ∧ d < l then (1 : ℚ) else 0)
      demands loads).length = min demands.length loads.length := by
    simp [List.length_zipWith]
  obtain ⟨x, t, hxt⟩ :=
    List.exists_cons_of_ne_nil
      (l := List.zipWith (fun d l => if d ≠ 0 ∧ d < l then (1 : ℚ) else 0) demands loads)
      (by intro hnil; rw [hnil] at hbl; simp at hbl; omega)
  unfold capMaskSample
  simp only [hxt, List.set_cons_zero]
  by_cases hcomb : loads.headD 0 = 0 ∨ (demands.drop 1).sum = 0
  · rw [if_pos hcomb, if_pos hcomb]
    rfl
  · rw [if_neg hcomb, if_neg hcomb]
    rfl

/-! ## C2: all-served termination of `update_mask` -/

/-- C2 counterexample: a single sample whose non-depot remaining demands are
all exactly `0` (depot sentinel slot `load - 1 = -1/2`) does **not** receive
the all-zero mask: the early return of line 107 tests every entry including
the depot slot, so the sample instead gets the depot-only mask `[1, 0, 0]`. -/
theorem update_mask_allserved_sample_not_zeroed :
    update_mask [⟨[1/2, 1/2, 1/2], [-(1/2), 0, 0], [0, 0, 0]⟩] [1] = [[1, 0, 0]]
      ∧ (([-(1/2), 0, 0] : List ℚ).drop 1).all (fun d => d = 0) = true
      ∧ ([[(1 : ℚ), 0, 0]] : List (List ℚ)) ≠ [[0, 0, 0]] :=
  ⟨by simp [update_mask, allDemandsZero, capMaskSample], by simp, by norm_num⟩

/-- C2 (amended): the all-served early return of `update_mask` is
batch-global and includes the depot sentinel slots — only when every demand
entry of every sample is exactly `0` is the all-zero mask returned (for the
whole batch); otherwise a sample whose non-depot demands are all `0`
receives the depot-only mask `[1, 0, ..., 0]`. -/
theorem update_mask_termination_batchwide :
    (∀ (dyn : List DSample) (chosen : List ℕ), allDemandsZero dyn = true →
      update_mask dyn chosen = dyn.map (fun s => s.demands.map (fun _ => (0 : ℚ))))
    ∧ (∀ (dyn : List DSample) (chosen : List ℕ) (i : ℕ) (s : DSample) (c : ℕ),
        allDemandsZero dyn = false →
        dyn.get? i = some s → chosen.get? i = some c →
        s.loads.length = s.demands.length → 0 < s.demands.length →
        (s.demands.drop 1).all (fun d => d = 0) = true →
        (update_mask dyn chosen).get? i
          = some (1 :: List.replicate (s.demands.length - 1) 0)) := by
  constructor
  · intro dyn chosen h
    unfold update_mask
    rw [if_pos h]
  · intro dyn chosen i s c hglob hs hc hlen hpos hall
    have hsum : (s.demands.drop 1).sum = 0 := by
      refine List.sum_eq_zero ?_
      intro x hx
      have := List.all_eq_true.mp hall x hx
      simpa using this
    unfold update_mask
    rw [if_neg (by simp [hglob])]
    rw [zipWith_get?_of_get? _ hs hc]
    rw [capMaskSample_combined c hlen hpos (Or.inr hsum)]

/-- Witness for `update_mask_termination_batchwide` at concrete inputs. -/
theorem update_mask_termination_batchwide_witness :
    update_mask [⟨[1, 1], [0, 0], [0, 0]⟩] [0]
        = ([⟨[1, 1], [0, 0], [0, 0]⟩] : List DSample).map
            (fun s => s.demands.map (fun _ => (0 : ℚ)))
    ∧ (update_mask [⟨[1, 1, 1], [-(1/2), 0, 0], [0, 0, 0]⟩] [2]).get? 0
        = some (1 :: List.replicate 2 0) :=
  ⟨update_mask_termination_batchwide.1 _ _ (by simp [allDemandsZero]),
   update_mask_termination_batchwide.2 _ _ 0 ⟨[1, 1, 1], [-(1/2), 0, 0], [0, 0, 0]⟩ 2
     (by norm_num [allDemandsZero]) rfl rfl rfl (by norm_num) (by simp)⟩

/-! ## C3: forced depot return of `update_mask` -/

/-- C3 counterexample: a sample with zero load and zero total non-depot
demand whose whole batch happens to satisfy the line-107 early return gets
the all-zero mask `[0, 0, 0]`, not the depot-only mask `[1, 0, 0]` the claim
promises. -/
theorem update_mask_forced_depot_overridden_by_early_return :
    update_mask [⟨[0, 0, 0], [0, 0, 0], [0, 0, 0]⟩] [1] = [[0, 0, 0]]
      ∧ (([0, 0, 0] : List ℚ).headD 0 = 0)
      ∧ ([[(0 : ℚ), 0, 0]] : List (List ℚ)) ≠ [[1, 0, 0]] :=
  ⟨by simp [update_mask, allDemandsZero], rfl, by norm_num⟩

/-- C3 (amended): for every sample with zero current load or zero total
non-depot remaining demand, `update_mask` returns the depot-only mask
`[1, 0, ..., 0]` — unless the batch-global early return fires (every demand
entry of every sample is `0`), in which case the mask is all-zero. -/
theorem update_mask_forced_depot_return :
    ∀ (dyn : List DSample) (chosen : List ℕ) (i : ℕ) (s : DSample) (c : ℕ),
      allDemandsZero dyn = false →
      dyn.get? i = some s → chosen.get? i = some c →
      s.loads.length = s.demands.length → 0 < s.demands.length →
      (s.loads.headD 0 = 0 ∨ (s.demands.drop 1).sum = 0) →
      (update_mask dyn chosen).get? i
        = some (1 :: List.replicate (s.demands.length - 1) 0) := by
  intro dyn chosen i s c hglob hs hc hlen hpos hcomb
  unfold update_mask
  rw [if_neg (by simp [hglob])]
  rw [zipWith_get?_of_get? _ hs hc]
  rw [capMaskSample_combined c hlen hpos hcomb]

/-- Witness for `update_mask_forced_depot_return`: a zero-load sample in a
batch that does not trigger the early return. -/
theorem update_mask_forced_depot_return_witness :
    (update_mask [⟨[0, 0, 0], [-1, 1/4, 1/2], [0, 0, 0]⟩] [0]).get? 0
      = some (1 :: List.replicate 2 0) :=
  update_mask_forced_depot_return _ _ 0 ⟨[0, 0, 0], [-1, 1/4, 1/2], [0, 0, 0]⟩ 0
    (by norm_num [allDemandsZero]) rfl rfl rfl (by norm_num) (Or.inl rfl)

/-! ## C5: depot alternation of `update_mask` -/

/-- C5 counterexample: when the batch-global early return of line 107 fires,
`mask[0] = 0` even for a sample whose previously chosen node was not the
depot — the claim promises `mask[0] = 1` there. -/
theorem update_mask_depot_alternation_early_return_ce :
    update_mask [⟨[1, 1, 1], [0, 0, 0], [0, 0, 0]⟩] [2] = [[0, 0, 0]]
      ∧ (2 : ℕ) ≠ 0
      ∧ (([(0 : ℚ), 0, 0]).headD 0 = 0)
      ∧ ((0 : ℚ) ≠ 1) :=
  ⟨by simp [update_mask, allDemandsZero], by decide, rfl, by norm_num⟩

/-- C5 (amended): outside the batch-global all-served early return,
`mask[0] = 1` for samples whose previous chosen node was not the depot, and
for previous-chosen-depot samples `mask[0]` is `1` exactly when the
zero-load / zero-remaining-demand override applies, else `0`; when the early
return fires, the whole mask row is zero, so `mask[0] = 0` regardless. -/
theorem update_mask_depot_alternation :
    (∀ (dyn : List DSample) (chosen : List ℕ) (i : ℕ) (s : DSample),
      allDemandsZero dyn = true → dyn.get? i = some s →
      (update_mask dyn chosen).get? i = some (s.demands.map (fun _ => (0 : ℚ))))
    ∧ (∀ (dyn : List DSample) (chosen : List ℕ) (i : ℕ) (s : DSample) (c : ℕ),
        allDemandsZero dyn = false →
        dyn.get? i = some s → chosen.get? i = some c →
        0 < s.loads.length → 0 < s.demands.length →
        (((update_mask dyn chosen).get? i).getD []).headD 0 =
          if s.loads.headD 0 = 0 ∨ (s.demands.drop 1).sum = 0 then 1
          else if c ≠ 0 then 1 else 0) := by
  constructor
  · intro dyn chosen i s hglob hs
    unfold update_mask
    rw [if_pos hglob, List.get?_eq_getElem?, List.getElem?_map, ← List.get?_eq_getElem?, hs]
    rfl
  · intro dyn chosen i s c hglob hs hc hl hd
    unfold update_mask
    rw [if_neg (by simp [hglob])]
    rw [zipWith_get?_of_get? _ hs hc]
    simpa using capMaskSample_headD c hl hd

/-- Witness for `update_mask_depot_alternation` at concrete inputs. -/
theorem update_mask_depot_alternation_witness :
    (update_mask [⟨[1, 1], [0, 0], [0, 0]⟩] [1]).get? 0
        = some (([0, 0] : List ℚ).map (fun _ => (0 : ℚ)))
    ∧ (((update_mask [⟨[1, 1, 1], [-(1/4), 3/4, 0], [0, 0, 0]⟩] [1]).get? 0).getD []).headD 0
        = if ([1, 1, 1] : List ℚ).headD 0 = 0 ∨ (([-(1/4), 3/4, 0] : List ℚ).drop 1).sum = 0
          then 1 else if (1 : ℕ) ≠ 0 then 1 else 0 :=
  ⟨update_mask_depot_alternation.1 _ [1] 0 ⟨[1, 1], [0, 0], [0, 0]⟩
     (by simp [allDemandsZero]) rfl,
   update_mask_depot_alternation.2 _ _ 0 ⟨[1, 1, 1], [-(1/4), 3/4, 0], [0, 0, 0]⟩ 1
     (by norm_num [allDemandsZero]) rfl rfl (by norm_num) (by norm_num)⟩

/-! ## Helper lemmas for `update_dynamic` -/

lemma headD_set_zero {α : Type} (l : List α) (a d : α) (h : l ≠ []) :
    (l.set 0 a).headD d = a := by
  cases l with
  | nil => exact absurd rfl h
  | cons x t => rfl

lemma headD_replicate {α : Type} (n : ℕ) (a d : α) (h : 0 < n) :
    (List.replicate n a).headD d = a := by
  cases n with
  | zero => omega
  | succ m => rfl

lemma mem_applyDepotBranch {dyn : List DSample} {chosen : List ℕ}
    (hall : ∀ c ∈ chosen, c = 0) :
    ∀ s' ∈ applyDepotBranch dyn chosen, ∃ s ∈ dyn, s' = depotResetSample s := by
  induction dyn generalizing chosen with
  | nil => intro s' hs'; simp [applyDepotBranch] at hs'
  | cons s ds ih =>
    intro s' hs'
    cases chosen with
    | nil => simp [applyDepotBranch] at hs'
    | cons c cs =>
      have hc : c = 0 := hall c (by simp)
      rw [applyDepotBranch, List.zipWith_cons_cons] at hs'
      rcases List.mem_cons.mp hs' with h | h
      · exact ⟨s, by simp, by simpa [hc] using h⟩
      · obtain ⟨s₀, hs₀, he⟩ := ih (fun x hx => hall x (by simp [hx])) s' h
        exact ⟨s₀, by simp [hs₀], he⟩

lemma update_dynamic_ok_elim {twT : List (List ℚ)} {dyn : List DSample}
    {chosen pre : List ℕ} {tm : List (List (List ℚ))} {dyn' : List DSample}
    (hok : update_dynamic twT dyn chosen pre tm = Except.ok dyn') :
    (∀ c ∈ chosen, c = 0) ∧ dyn' = applyDepotBranch dyn chosen := by
  by_cases h : chosen.any (fun c => c ≠ 0) = true
  · exfalso
    unfold update_dynamic at hok
    rw [if_pos h] at hok
    rcases hp : pyRange chosen.length chosen with e | rows
    · rw [hp] at hok; exact Except.noConfusion hok
    · rw [hp] at hok
      rcases hg : gatherRows rows twT with e | t <;> simp [hg] at hok
  · have hall : ∀ c ∈ chosen, c = 0 := by
      intro c hc
      by_contra hne
      exact h (List.any_eq_true.mpr ⟨c, hc, by simpa using hne⟩)
    unfold update_dynamic at hok
    rw [if_neg h] at hok
    exact ⟨hall, (Except.ok.injEq _ _ ▸ hok.symm : _)⟩

/-! ## C4: the customer-visit time update of `update_dynamic` -/

/-- C4: the claimed time update (`arrival`, wait-for-window, horizon clamp)
never happens.  Three concrete customer visits, one per failure mode of the
time computation of the source: a batch of one visiting node `2` against a
one-sample dataset hits the misplaced-comma row indexing of line 179
(`IndexError`); a batch of two raises at the tensor-to-scalar coercion in
`range(batch_size, chosen_idx)`; a batch of one visiting node `1` reaches
the bare `torch.clamp` of line 180, which always raises. -/
theorem update_dynamic_time_update_raises :
    update_dynamic [[0, 0, 0]] [⟨[1, 1, 1], [0, 1, 1], [0, 0, 0]⟩] [2] [0]
        [[[0, 0, 0], [0, 0, 0], [0, 0, 0]]]
      = Except.error "IndexError: index out of bounds of self.static"
    ∧ update_dynamic [[0, 0], [0, 0]]
        [⟨[1, 1], [0, 1], [0, 0]⟩, ⟨[1, 1], [0, 1], [0, 0]⟩] [1, 1] [0, 0]
        [[[0, 0], [0, 0]], [[0, 0], [0, 0]]]
      = Except.error "ValueError: only one element tensors can be converted to Python scalars"
    ∧ update_dynamic [[0, 0]] [⟨[1, 1], [0, 1], [0, 0]⟩] [1] [0] [[[0, 0], [0, 0]]]
      = Except.error "RuntimeError: torch.clamp requires min or max" :=
  ⟨rfl, rfl, rfl⟩

/-! ## C1: load/demand settlement of a customer visit -/

/-- C1: the settlement formulas of source lines 173-174 and 187-189 are
exactly the claimed ones — `new_load = max(load-demand, 0)`,
`new_demand = max(demand-load, 0)`, at most one of the two is nonzero, and
the depot demand slot is written to `new_load - 1` — but `update_dynamic`
itself raises on every customer visit before returning the settled state
(first conjunct: a concrete visiting call errors at the bare
`torch.clamp`). -/
theorem update_dynamic_visit_settlement_and_crash :
    update_dynamic [[0, 0, 0]] [⟨[1, 1, 1], [0, 1/3, 1/2], [0, 0, 0]⟩] [1] [0]
        [[[0, 0, 0], [0, 0, 0], [0, 0, 0]]]
      = Except.error "RuntimeError: torch.clamp requires min or max"
    ∧ (∀ l d : ℚ, new_load l d = 0 ∨ new_demand l d = 0)
    ∧ (∀ (s : DSample) (c : ℕ), c ≠ 0 → 0 < s.demands.length →
        (settleVisitSample s c).demands.headD 0
            = new_load (gather1 s.loads c) (gather1 s.demands c) - 1
          ∧ (settleVisitSample s c).loads
              = List.replicate s.loads.length
                  (new_load (gather1 s.loads c) (gather1 s.demands c))
          ∧ (c < s.demands.length →
              (settleVisitSample s c).demands.getD c 0
                = new_demand (gather1 s.loads c) (gather1 s.demands c))) := by
  refine ⟨rfl, ?_, ?_⟩
  · intro l d
    rcases le_total l d with h | h
    · left
      simp [new_load, sub_nonpos.mpr h]
    · right
      simp [new_demand, sub_nonpos.mpr h]
  · intro s c hc hd
    refine ⟨?_, rfl, ?_⟩
    · rw [settleVisitSample]
      have hne : s.demands.set c (new_demand (gather1 s.loads c) (gather1 s.demands c)) ≠ [] := by
        intro hnil
        have hl' := congrArg List.length hnil
        rw [List.length_set] at hl'
        simp only [List.length_nil] at hl'
        omega
      rw [headD_set_zero _ _ _ hne]
      ring
    · intro hlt
      rw [settleVisitSample]
      have h0 : (0 : ℕ) ≠ c := fun h => hc h.symm
      simp only [List.getD_eq_getElem?_getD, List.getElem?_set_ne h0,
        List.getElem?_set_self']
      rw [List.getElem?_eq_getElem hlt]
      rfl

/-- Witness for `update_dynamic_visit_settlement_and_crash` at a concrete
sample and chosen index. -/
theorem update_dynamic_visit_settlement_and_crash_witness :
    (settleVisitSample ⟨[1, 1], [0, 1], [0, 0]⟩ 1).demands.headD 0
        = new_load (gather1 [1, 1] 1) (gather1 [0, 1] 1) - 1
      ∧ (settleVisitSample ⟨[1, 1], [0, 1], [0, 0]⟩ 1).loads
          = List.replicate 2 (new_load (gather1 [1, 1] 1) (gather1 [0, 1] 1))
      ∧ (settleVisitSample ⟨[1, 1], [0, 1], [0, 0]⟩ 1).demands.getD 1 0
          = new_demand (gather1 [1, 1] 1) (gather1 [0, 1] 1) := by
  have h := update_dynamic_visit_settlement_and_crash.2.2
    ⟨[1, 1], [0, 1], [0, 0]⟩ 1 (by decide) (by decide)
  exact ⟨h.1, h.2.1, h.2.2 (by decide)⟩

/-! ## C7: time monotonicity -/

/-- C7: no customer visit produces a vehicle time at all — `update_dynamic`
raises on every batch containing one (first conjunct, concrete input) — and
every call that does return (all-depot batches) resets each returned
vehicle-time entry to `0`, so every produced vehicle time is `≤ 1`. -/
theorem update_dynamic_time_monotonicity_status :
    update_dynamic [[0, 0, 0]] [⟨[1, 1, 1], [0, 2/3, 1/3], [1/4, 1/4, 1/4]⟩] [1] [2]
        [[[0, 0, 0], [0, 0, 0], [0, 0, 0]]]
      = Except.error "RuntimeError: torch.clamp requires min or max"
    ∧ (∀ (twT : List (List ℚ)) (dyn : List DSample) (chosen pre : List ℕ)
        (tm : List (List (List ℚ))) (dyn' : List DSample),
        update_dynamic twT dyn chosen pre tm = Except.ok dyn' →
        ∀ s' ∈ dyn', ∀ t ∈ s'.vtime, t ≤ 1) := by
  refine ⟨rfl, ?_⟩
  intro twT dyn chosen pre tm dyn' hok s' hs' t ht
  obtain ⟨hall, rfl⟩ := update_dynamic_ok_elim hok
  obtain ⟨s, _, rfl⟩ := mem_applyDepotBranch hall s' hs'
  have h0 : t = 0 := List.eq_of_mem_replicate ht
  rw [h0]
  norm_num

/-- Witness for `update_dynamic_time_monotonicity_status`: a concrete
all-depot step that returns, whose vehicle time `0` is `≤ 1`. -/
theorem update_dynamic_time_monotonicity_status_witness : (0 : ℚ) ≤ 1 :=
  update_dynamic_time_monotonicity_status.2 [[0]] [⟨[1], [0], [1/2]⟩] [0] [0]
    [[[0]]] [⟨[1], [0], [0]⟩] rfl ⟨[1], [0], [0]⟩ (by simp) 0 (by simp [depotResetSample])

/-! ## C10: the depot demand-slot sentinel invariant -/

/-- The invariant `demand[0] = load - 1`: the sentinel meaning of the depot demand slot. -/
def depotInv (s : DSample) : Prop :=
  s.demands.headD 0 = s.loads.headD 0 - 1

/-- C10: `demand[0] = load - 1` holds in the initial dynamic state
(`load = 1`, `demand[0] = 0`); the customer-visit write-back of lines
187-189 re-establishes it (`demand[0] := new_load - 1`, `load := new_load`);
every state actually returned by `update_dynamic` (all-depot steps) also
satisfies it (`load := 1`, `demand[0] := 0`); and under the invariant the
all-served early-return guard of `update_mask` forces `load = 1` on every
sample of the batch. -/
theorem depot_demand_slot_invariant :
    (∀ rawDemands : List ℚ, 0 < rawDemands.length → depotInv (initSample rawDemands))
    ∧ (∀ (s : DSample) (c : ℕ), c ≠ 0 → 0 < s.loads.length → 0 < s.demands.length →
        depotInv (settleVisitSample s c))
    ∧ (∀ (twT : List (List ℚ)) (dyn : List DSample) (chosen pre : List ℕ)
        (tm : List (List (List ℚ))) (dyn' : List DSample),
        update_dynamic twT dyn chosen pre tm = Except.ok dyn' →
        ∀ s' ∈ dyn', 0 < s'.loads.length → 0 < s'.demands.length → depotInv s')
    ∧ (∀ dyn : List DSample, allDemandsZero dyn = true →
        ∀ s ∈ dyn, depotInv s → 0 < s.demands.length → s.loads.headD 0 = 1) := by
  refine ⟨?_, ?_, ?_, ?_⟩
  · intro raw hraw
    unfold depotInv initSample
    rw [headD_set_zero _ _ _ (by simpa [← List.length_pos] using hraw)]
    rw [headD_replicate _ _ _ hraw]
    norm_num
  · intro s c hc hl hd
    unfold depotInv settleVisitSample
    rw [headD_set_zero _ _ _ (by
      intro hnil
      have hl' := congrArg List.length hnil
      rw [List.length_set] at hl'
      simp only [List.length_nil] at hl'
      omega)]
    rw [headD_replicate _ _ _ hl]
    ring
  · intro twT dyn chosen pre tm dyn' hok s' hs' hl hd
    obtain ⟨hall, rfl⟩ := update_dynamic_ok_elim hok
    obtain ⟨s, _, rfl⟩ := mem_applyDepotBranch hall s' hs'
    unfold depotInv depotResetSample
    unfold depotResetSample at hl hd
    simp only [List.length_replicate, List.length_set] at hl hd
    rw [headD_set_zero _ _ _ (by simpa [← List.length_pos] using hd)]
    rw [headD_replicate _ _ _ hl]
    norm_num
  · intro dyn hglob s hs hinv hd
    have hall : s.demands.all (fun d => decide (d = 0)) = true := by
      simpa using List.all_eq_true.mp hglob s hs
    have hhead : s.demands.headD 0 = 0 := by
      cases hds : s.demands with
      | nil => rw [hds] at hd; simp at hd
      | cons x t =>
        rw [hds] at hall
        have := List.all_eq_true.mp hall x (by simp)
        simpa using this
    unfold depotInv at hinv
    rw [hhead] at hinv
    linarith [hinv]

/-- Witness for `depot_demand_slot_invariant` at concrete inputs. -/
theorem depot_demand_slot_invariant_witness :
    depotInv (initSample [7, 2/5, 1/5])
    ∧ depotInv (settleVisitSample ⟨[1, 1], [0, 1], [0, 0]⟩ 1)
    ∧ depotInv ⟨[1], [0], [0]⟩
    ∧ (⟨[1], [0], [0]⟩ : DSample).loads.headD 0 = 1 :=
  ⟨depot_demand_slot_invariant.1 [7, 2/5, 1/5] (by norm_num),
   depot_demand_slot_invariant.2.1 ⟨[1, 1], [0, 1], [0, 0]⟩ 1 (by decide) (by norm_num)
     (by norm_num),
   depot_demand_slot_invariant.2.2.1 [[0]] [⟨[1], [1/2], [1/4]⟩] [0] [0] [[[0]]]
     [⟨[1], [0], [0]⟩] rfl ⟨[1], [0], [0]⟩ (by simp) (by norm_num) (by norm_num),
   depot_demand_slot_invariant.2.2.2 [⟨[1], [0], [0]⟩] (by simp [allDemandsZero])
     ⟨[1], [0], [0]⟩ (by simp) (by simp [depotInv]) (by norm_num)⟩

/-! ## C6: `update_time_mask` -/

lemma getD_eq_of_get? {α : Type} {l : List α} {j : ℕ} {a : α} (d : α)
    (h : l.get? j = some a) : l.getD j d = a := by
  rw [List.getD_eq_getElem?_getD, ← List.get?_eq_getElem?, h]
  rfl

lemma get?_eq_some_getD {α : Type} {l : List α} {j : ℕ} (d : α) (h : j < l.length) :
    l.get? j = some (l.getD j d) := by
  rw [List.get?_eq_getElem?, List.getElem?_eq_getElem h,
    List.getD_eq_getElem?_getD, List.getElem?_eq_getElem h]
  rfl

/-- C6: with the per-sample `chosen_idx` playing the role of the previously
chosen node, entry `j` of the mask produced by `update_time_mask` is `true`
exactly when the time-window end of candidate `j` is at least the arrival time
`vehicle_time + time_matrix[chosen_idx][j]`. -/
theorem update_time_mask_legal_iff :
    ∀ (ends vtimes : List (List ℚ)) (tms : List (List (List ℚ))) (chosen : List ℕ)
      (i : ℕ) (e v : List ℚ) (tm : List (List ℚ)) (c : ℕ) (j : ℕ),
      ends.get? i = some e → vtimes.get? i = some v → tms.get? i = some tm →
      chosen.get? i = some c →
      j < e.length → j < v.length → j < (tm.getD c []).length →
      (update_time_mask ends vtimes tms chosen).get? i = some (timeMaskSample e v tm c)
      ∧ ((timeMaskSample e v tm c).getD j false = true ↔
          v.getD j 0 + (tm.getD c []).getD j 0 ≤ e.getD j 0) := by
  intro ends vtimes tms chosen i e v tm c j he hv htm hc hje hjv hjt
  constructor
  · unfold update_time_mask
    have hz : (List.zip vtimes tms).get? i = some (v, tm) :=
      zipWith_get?_of_get? Prod.mk hv htm
    have hz2 : (List.zip ends (List.zip vtimes tms)).get? i = some (e, (v, tm)) :=
      zipWith_get?_of_get? Prod.mk he hz
    exact zipWith_get?_of_get? _ hz2 hc
  · unfold timeMaskSample
    have hrow : (tm.getD c []).get? j = some ((tm.getD c []).getD j 0) :=
      get?_eq_some_getD 0 hjt
    have hvj : v.get? j = some (v.getD j 0) := get?_eq_some_getD 0 hjv
    have hej : e.get? j = some (e.getD j 0) := get?_eq_some_getD 0 hje
    have hnew : (List.zipWith (· + ·) (tm.getD c []) v).get? j
        = some ((tm.getD c []).getD j 0 + v.getD j 0) :=
      zipWith_get?_of_get? _ hrow hvj
    have hmask : (List.zipWith (fun e t => decide (t ≤ e)) e
        (List.zipWith (· + ·) (tm.getD c []) v)).get? j
        = some (decide ((tm.getD c []).getD j 0 + v.getD j 0 ≤ e.getD j 0)) :=
      zipWith_get?_of_get? _ hej hnew
    rw [getD_eq_of_get? false hmask]
    rw [decide_eq_true_eq]
    constructor
    · intro h; linarith [h]
    · intro h; linarith [h]

/-- Witness for `update_time_mask_legal_iff` at a concrete batch. -/
theorem update_time_mask_legal_iff_witness :
    (update_time_mask [[1, 1/2]] [[1/2, 1/2]] [[[0, 1/4], [1/4, 0]]] [1]).get? 0
        = some (timeMaskSample [1, 1/2] [1/2, 1/2] [[0, 1/4], [1/4, 0]] 1)
    ∧ ((timeMaskSample [1, 1/2] [1/2, 1/2] [[0, 1/4], [1/4, 0]] 1).getD 0 false = true ↔
        ([1/2, 1/2] : List ℚ).getD 0 0
            + (([[0, 1/4], [1/4, 0]] : List (List ℚ)).getD 1 []).getD 0 0
          ≤ ([1, 1/2] : List ℚ).getD 0 0) :=
  update_time_mask_legal_iff [[1, 1/2]] [[1/2, 1/2]] [[[0, 1/4], [1/4, 0]]] [1]
    0 [1, 1/2] [1/2, 1/2] [[0, 1/4], [1/4, 0]] 1 0
    rfl rfl rfl rfl (by norm_num) (by norm_num) (by norm_num)

/-! ## C9: dataset-construction errors -/

/-- C9 counterexample: `max_load = 20 ≥ max_demand = 9`,
`max_TW = 8 ≥ min_TW = 2` and `TW_to = 5 ≥ TW_from = 5` satisfy the three
claimed constraints, yet construction still raises: line 48 divides
`ServiceTime` by `TW_to - TW_from = 0`. -/
theorem VRPTWDataset_init_raises_despite_constraints :
    VRPTWDataset_init ⟨20, 9, 2, 8, 5, 5⟩
        = Except.error "ZeroDivisionError: division by zero"
      ∧ (9 : ℤ) ≤ 20 ∧ (2 : ℤ) ≤ 8 ∧ (5 : ℤ) ≤ 5 :=
  ⟨rfl, by decide, by decide, by decide⟩

/-- C9 (amended): the three explicit checks of lines 27-32 raise a
descriptive configuration `ValueError` exactly when one of
`max_load ≥ max_demand`, `max_TW ≥ min_TW`, `TW_to ≥ TW_from` is violated;
but passing them does not make construction safe — generation succeeds
exactly when additionally `TW_to ≠ TW_from` (line 48 scalar division),
`max_TW ≤ TW_to - TW_from` (line 57 `randint` range), `TW_to ≠ 0` (line 61
scalar division) and `max_demand ≥ 1` (line 79 `randint` range) hold. -/
theorem VRPTWDataset_init_ok_iff :
    ∀ c : Cfg,
      ((VRPTWDataset_init c = Except.ok ()) ↔
        (c.max_demand ≤ c.max_load ∧ c.min_TW ≤ c.max_TW ∧ c.TW_from ≤ c.TW_to
          ∧ c.TW_from ≠ c.TW_to ∧ c.max_TW ≤ c.TW_to - c.TW_from ∧ c.TW_to ≠ 0
          ∧ 1 ≤ c.max_demand))
      ∧ ((c.max_load < c.max_demand ∨ c.max_TW < c.min_TW ∨ c.TW_to < c.TW_from) ↔
          (VRPTWDataset_init c = Except.error "ValueError: max_load must be > max_demand"
            ∨ VRPTWDataset_init c = Except.error "ValueError: max_TW must be > min_TW"
            ∨ VRPTWDataset_init c = Except.error "ValueError: TW_end must be > TW_from")) := by
  intro c
  unfold VRPTWDataset_init
  constructor
  · split_ifs <;> simp <;> omega
  · split_ifs <;> simp <;> omega

/-! ## C8: the tour cost evaluator -/

lemma segLen_quad (a b c d a' b' c' d' : ℝ) :
    segLen [a, b, c, d] [a', b', c', d']
      = Real.sqrt ((a - a') ^ 2 + ((b - b') ^ 2 + ((c - c') ^ 2 + ((d - d') ^ 2 + 0)))) :=
  rfl

lemma segLen_pair (a b a' b' : ℝ) :
    segLen [a, b] [a', b'] = Real.sqrt ((a - a') ^ 2 + ((b - b') ^ 2 + 0)) :=
  rfl

lemma sqDist_self (a : List ℝ) : sqDist a a = 0 := by
  induction a with
  | nil => rfl
  | cons x t ih =>
    unfold sqDist at ih ⊢
    rw [List.zip_cons_cons, List.map_cons, List.sum_cons, ih]
    ring

/-- C8 counterexample: `reward` gathers *all* static feature rows, so with a
depot column `(x, y, tw_start, tw_end) = (0, 0, 0, 1)` and customer column
`(1, 0, 0, 0)` the tour `[1]` costs `2·√2` — the time-window coordinates
enter the distance — while the claimed 2-D Euclidean length is `2`. -/
theorem reward_uses_all_static_rows_ce :
    reward [[0, 0, 0, 1], [1, 0, 0, 0]] [1] = 2 * Real.sqrt 2
      ∧ spec_tourLen2D [(0, 0), (1, 0)] [1] = 2
      ∧ 2 * Real.sqrt 2 ≠ 2 := by
  refine ⟨?_, ?_, ?_⟩
  · show segLen [0, 0, 0, 1] [1, 0, 0, 0] + (segLen [1, 0, 0, 0] [0, 0, 0, 1] + 0)
      = 2 * Real.sqrt 2
    rw [segLen_quad, segLen_quad]
    norm_num
    ring
  · show segLen [0, 0] [1, 0] + (segLen [1, 0] [0, 0] + 0) = 2
    rw [segLen_pair, segLen_pair]
    norm_num
  · intro h
    have h1 : Real.sqrt 2 = 1 := by linarith
    have h2 : Real.sqrt 2 ^ 2 = 2 := Real.sq_sqrt (by norm_num)
    rw [h1] at h2
    norm_num at h2

/-- C8 (amended): `reward` is the total Euclidean length *in the full static
feature space* of the depot-anchored tour (it concatenates the whole depot
feature column at both ends and sums consecutive feature-space distances);
depot-to-depot segments contribute `0`; when the non-coordinate features are
equal along the tour — here all zero — it coincides with the 2-D length, and
the 3-node example of the spec, tour `[1, 2]`, costs `2 + √2`. -/
theorem reward_full_feature_length :
    reward [[0, 0, 0, 0], [1, 0, 0, 0], [1, 1, 0, 0]] [1, 2] = 2 + Real.sqrt 2
      ∧ (∀ a : List ℝ, segLen a a = 0)
      ∧ (∀ (static : List (List ℝ)) (tour : List ℕ),
          reward static tour
            = pathLen (static.headD [] :: tour.map (fun i => static.getD i [])
                ++ [static.headD []])) := by
  refine ⟨?_, ?_, fun static tour => rfl⟩
  · show segLen [0, 0, 0, 0] [1, 0, 0, 0]
        + (segLen [1, 0, 0, 0] [1, 1, 0, 0] + (segLen [1, 1, 0, 0] [0, 0, 0, 0] + 0))
      = 2 + Real.sqrt 2
    rw [segLen_quad, segLen_quad, segLen_quad]
    norm_num
    ring
  · intro a
    unfold segLen
    rw [sqDist_self, Real.sqrt_zero]

end VRPTW
